import Mathlib

/-!
Verification of the 8086 interpreter core of `emupc-rs`.

The definitions below are a shallow embedding of `src/cpu8086/registers.rs`
and `src/cpu8086/mod.rs`.  Machine integers (`u8`, `u16`, `u32`) are
modelled as `Nat` with explicit masking exactly where the Rust code
truncates (casts, `wrapping_add`, `wrapping_shl`, ...).  The panics of the
source (`panic!`, `Option::unwrap` on `None`) are modelled by an explicit
error value returned together with the state that was current at the
moment of the panic.
-/

namespace EmuPc

/-! ## Flags (bitflags from `registers.rs`)

`bitflags! { pub struct Flags: u16 { const CARRY = 0x0001; ... } }`.
A `Flags` value is its underlying `u16` bit pattern, kept as a `Nat`.
-/

namespace Flags

def CARRY : Nat := 0x0001
def PARITY : Nat := 0x0004
def ADJUST : Nat := 0x0010
def ZERO : Nat := 0x0040
def SIGN : Nat := 0x0080
def TRAP : Nat := 0x0100
def INTERRUPT : Nat := 0x0200
def DIRECTION : Nat := 0x0400
def OVERFLOW : Nat := 0x0800
def DEFAULT : Nat := 0xf002

/-- `Flags::all()` of the `bitflags` crate: the union of every constant
declared in the macro (including `DEFAULT`). -/
def ALL : Nat :=
  CARRY ||| PARITY ||| ADJUST ||| ZERO ||| SIGN ||| TRAP ||| INTERRUPT |||
    DIRECTION ||| OVERFLOW ||| DEFAULT

/-- `Flags::set(&mut self, other, value)`: insert the bits of `other` when
`value` is true, remove them (`bits &= !other`, a `u16` complement)
otherwise. -/
def set (bits flag : Nat) (value : Bool) : Nat :=
  if value then bits ||| flag else bits &&& (0xFFFF ^^^ flag)

/-- `Flags::contains(other)`: `bits & other == other`. -/
def contains (bits flag : Nat) : Bool :=
  bits &&& flag == flag

/-- `Flags::from_bits(bits)`: `Some` exactly when no bit outside
`Flags::all()` is set (`bits & !Self::all().bits() == 0`, `u16`
complement). -/
def from_bits (bits : Nat) : Option Nat :=
  if bits &&& (0xFFFF ^^^ ALL) = 0 then some bits else none

/-- `Flags::from_bits_truncate(bits)`: `bits & Self::all().bits()`. -/
def from_bits_truncate (bits : Nat) : Nat :=
  bits &&& ALL

end Flags

/-! ## Register names (`Reg8`, `Reg16`, `SegReg` from `registers.rs`) -/

inductive Reg8 where
  | AL | CL | DL | BL | AH | CH | DH | BH
deriving DecidableEq, Repr

/-- `Reg8::from_num`: match on `num & 7`. -/
def Reg8.from_num (num : Nat) : Option Reg8 :=
  match num &&& 7 with
  | 0 => some Reg8.AL
  | 1 => some Reg8.CL
  | 2 => some Reg8.DL
  | 3 => some Reg8.BL
  | 4 => some Reg8.AH
  | 5 => some Reg8.CH
  | 6 => some Reg8.DH
  | 7 => some Reg8.BH
  | _ => none

inductive Reg16 where
  | AX | CX | DX | BX | SP | BP | SI | DI | FLAGS
deriving DecidableEq, Repr

/-- `Reg16::from_num`: match on `num & 7`. -/
def Reg16.from_num (num : Nat) : Option Reg16 :=
  match num &&& 7 with
  | 0 => some Reg16.AX
  | 1 => some Reg16.CX
  | 2 => some Reg16.DX
  | 3 => some Reg16.BX
  | 4 => some Reg16.SP
  | 5 => some Reg16.BP
  | 6 => some Reg16.SI
  | 7 => some Reg16.DI
  | _ => none

inductive SegReg where
  | ES | CS | SS | DS
deriving DecidableEq, Repr

/-- `SegReg::from_num`: match on `num & 3`. -/
def SegReg.from_num (num : Nat) : Option SegReg :=
  match num &&& 3 with
  | 0 => some SegReg.ES
  | 1 => some SegReg.CS
  | 2 => some SegReg.SS
  | 3 => some SegReg.DS
  | _ => none

/-! ## Register file (`struct Registers` from `registers.rs`)

The Rust struct holds `gprs: [u16; 8]` and `seg_regs: [u16; 4]`; here each
array slot is a named field (`gprs0` is `gprs[0]`, `seg0` is
`seg_regs[0]`, and so on). -/

structure Registers where
  ip : Nat
  gprs0 : Nat
  gprs1 : Nat
  gprs2 : Nat
  gprs3 : Nat
  gprs4 : Nat
  gprs5 : Nat
  gprs6 : Nat
  gprs7 : Nat
  seg0 : Nat
  seg1 : Nat
  seg2 : Nat
  seg3 : Nat
  flags : Nat
deriving DecidableEq, Repr

namespace Registers

/-- `Registers::new()`: everything zero except `seg_regs = [0, 0xffff, 0, 0]`
and `flags = Flags::default() = DEFAULT`. -/
def new : Registers :=
  { ip := 0
    gprs0 := 0, gprs1 := 0, gprs2 := 0, gprs3 := 0
    gprs4 := 0, gprs5 := 0, gprs6 := 0, gprs7 := 0
    seg0 := 0, seg1 := 0xffff, seg2 := 0, seg3 := 0
    flags := Flags.DEFAULT }

/-- `Registers::read8`: the low or high byte of the aliased 16-bit slot;
the `as u8` casts are the `&&& 0xff` masks. -/
def read8 (r : Registers) (reg : Reg8) : Nat :=
  match reg with
  | Reg8.AL => r.gprs0 &&& 0xff
  | Reg8.CL => r.gprs1 &&& 0xff
  | Reg8.DL => r.gprs2 &&& 0xff
  | Reg8.BL => r.gprs3 &&& 0xff
  | Reg8.AH => (r.gprs0 >>> 8) &&& 0xff
  | Reg8.CH => (r.gprs1 >>> 8) &&& 0xff
  | Reg8.DH => (r.gprs2 >>> 8) &&& 0xff
  | Reg8.BH => (r.gprs3 >>> 8) &&& 0xff

/-- `Registers::write8`: `gprs[i] &= !0xff; gprs[i] |= value` for the low
half, `gprs[i] &= 0xff; gprs[i] |= value << 8` for the high half
(`!0xffu16 = 0xff00`). -/
def write8 (r : Registers) (reg : Reg8) (value : Nat) : Registers :=
  match reg with
  | Reg8.AL => { r with gprs0 := (r.gprs0 &&& 0xff00) ||| value }
  | Reg8.CL => { r with gprs1 := (r.gprs1 &&& 0xff00) ||| value }
  | Reg8.DL => { r with gprs2 := (r.gprs2 &&& 0xff00) ||| value }
  | Reg8.BL => { r with gprs3 := (r.gprs3 &&& 0xff00) ||| value }
  | Reg8.AH => { r with gprs0 := (r.gprs0 &&& 0xff) ||| (value <<< 8) }
  | Reg8.CH => { r with gprs1 := (r.gprs1 &&& 0xff) ||| (value <<< 8) }
  | Reg8.DH => { r with gprs2 := (r.gprs2 &&& 0xff) ||| (value <<< 8) }
  | Reg8.BH => { r with gprs3 := (r.gprs3 &&& 0xff) ||| (value <<< 8) }

/-- `Registers::read16`; the `FLAGS` view re-asserts the reserved bits:
`(self.flags.bits() as u16) | 0xf002u16`. -/
def read16 (r : Registers) (reg : Reg16) : Nat :=
  match reg with
  | Reg16.AX => r.gprs0
  | Reg16.CX => r.gprs1
  | Reg16.DX => r.gprs2
  | Reg16.BX => r.gprs3
  | Reg16.SP => r.gprs4
  | Reg16.BP => r.gprs5
  | Reg16.SI => r.gprs6
  | Reg16.DI => r.gprs7
  | Reg16.FLAGS => r.flags ||| 0xf002

/-- `Registers::write16`; the `FLAGS` view goes through
`Flags::from_bits_truncate`. -/
def write16 (r : Registers) (reg : Reg16) (value : Nat) : Registers :=
  match reg with
  | Reg16.AX => { r with gprs0 := value }
  | Reg16.CX => { r with gprs1 := value }
  | Reg16.DX => { r with gprs2 := value }
  | Reg16.BX => { r with gprs3 := value }
  | Reg16.SP => { r with gprs4 := value }
  | Reg16.BP => { r with gprs5 := value }
  | Reg16.SI => { r with gprs6 := value }
  | Reg16.DI => { r with gprs7 := value }
  | Reg16.FLAGS => { r with flags := Flags.from_bits_truncate value }

/-- `Registers::readseg16`. -/
def readseg16 (r : Registers) (seg_reg : SegReg) : Nat :=
  match seg_reg with
  | SegReg.ES => r.seg0
  | SegReg.CS => r.seg1
  | SegReg.SS => r.seg2
  | SegReg.DS => r.seg3

/-- `Registers::writeseg16`. -/
def writeseg16 (r : Registers) (seg_reg : SegReg) (value : Nat) : Registers :=
  match seg_reg with
  | SegReg.ES => { r with seg0 := value }
  | SegReg.CS => { r with seg1 := value }
  | SegReg.SS => { r with seg2 := value }
  | SegReg.DS => { r with seg3 := value }

end Registers

example : Registers.new.read16 Reg16.FLAGS = 0xf002 := by decide
example : ((Registers.new.write8 Reg8.AH 0x12).write8 Reg8.AL 0x34).read16 Reg16.AX = 0x1234 := by
  decide

/-! ## Operand decoder

`src/cpu8086/mod.rs` declares `pub mod operand;` and uses
`Operand::Register`, `Operand` memory variants and
`get_opcode_params_from_modrm`, but `operand.rs` itself is not part of the
sources under verification. -/

/-- Modelled from the spec: the `Operand` tagged union of the missing
`operand.rs` — "a register reference (an index 0-7 ...) or a memory
reference (an effective address expression ...)". The memory variant keeps
the mode and rm fields of the ModRM byte as its descriptor. -/
inductive Operand where
  | Register (n : Nat)
  | Memory (mode rm : Nat)
deriving DecidableEq, Repr

/-- Modelled from the spec: the decoded `{reg, rm}` pair produced from one
ModRM byte (missing `operand.rs`). -/
structure OpcodeParams where
  reg : Operand
  rm : Operand
deriving DecidableEq, Repr

/-- Modelled from the spec: `get_opcode_params_from_modrm` of the missing
`operand.rs` — "bits 7-6 select addressing mode (register-direct vs one of
several memory-addressing forms), bits 5-3 select the `reg` field, bits
2-0 select the `rm` field (register index if mode is register-direct,
otherwise a base/index/displacement combination)". Register-direct is the
mode bit pattern `0b11`, as on the real CPU. The decoder is total and
performs no bus access. -/
def get_opcode_params_from_modrm (modrm : Nat) : OpcodeParams :=
  let mode := (modrm &&& 0xc0) >>> 6
  let reg_field := (modrm &&& 0x38) >>> 3
  let rm_field := modrm &&& 0x07
  { reg := Operand.Register reg_field
    rm := if mode = 3 then Operand.Register rm_field else Operand.Memory mode rm_field }

/-! ## The CPU and its bus (`mod.rs`) -/

/-- The state of `struct Cpu8086`: the register file and the last fetched
opcode byte. -/
structure Cpu8086 where
  regs : Registers
  opcode : Nat
deriving DecidableEq, Repr

/-- `Cpu8086::new()`. -/
def Cpu8086.new : Cpu8086 :=
  { regs := Registers.new, opcode := 0 }

/-- The `Cpu8086Context` bus capability, reduced to its memory-read face
(the only one the implemented opcodes use).  `mem a &&& 0xff` models the
`u8` return type of `mem_read_byte`. -/
def Mem : Type := Nat → Nat

/-- `u16::wrapping_add`. -/
def wadd16 (a b : Nat) : Nat := (a + b) &&& 0xffff

/-- The address computation of `Cpu8086::mem_read_byte` /
`mem_write_byte` / `mem_read_word`:
`(((seg as u32) << 4) | addr as u32) & 0xfffff`. -/
def physAddr (seg addr : Nat) : Nat :=
  ((seg <<< 4) ||| addr) &&& 0xfffff

/-- `Cpu8086::mem_read_byte`. -/
def memReadByte (mem : Mem) (seg addr : Nat) : Nat :=
  mem (physAddr seg addr) &&& 0xff

/-- `Cpu8086::mem_read_word`: two byte reads at the masked address and its
independently re-wrapped successor, assembled little-endian. -/
def memReadWord (mem : Mem) (seg addr : Nat) : Nat :=
  let masked := physAddr seg addr
  let lo := mem masked &&& 0xff
  let hi := mem ((masked + 1) &&& 0xfffff) &&& 0xff
  lo ||| (hi <<< 8)

/-- The body of the `while data != 0` loop of `set_parity_flag`:
`parity ^= data & 1; data >>= 1`.  `data` is a `u16`, so the loop runs at
most 16 iterations; the extra fuel argument (fixed to 16 at the call site)
makes the recursion structural without changing the result for any `u16`
input. -/
def parityFuel : Nat → Nat → Nat → Nat
  | 0, parity, _ => parity
  | fuel + 1, parity, data =>
    if data = 0 then parity
    else parityFuel fuel (parity ^^^ (data &&& 1)) (data >>> 1)

/-- The parity accumulator of `set_parity_flag` for a `u16` argument. -/
def parityLoop (parity data : Nat) : Nat := parityFuel 16 parity data

/-- `Cpu8086::set_parity_flag(data)`:
`self.regs.flags.set(Flags::PARITY, parity != 0)` after the loop. -/
def Cpu8086.set_parity_flag (cpu : Cpu8086) (data : Nat) : Cpu8086 :=
  { cpu with regs :=
      { cpu.regs with flags := Flags.set cpu.regs.flags Flags.PARITY (parityLoop 0 data != 0) } }

/-- `offset as i8 as i16 ... as u16`: sign extension of a fetched byte to
a 16-bit pattern. -/
def sext8 (b : Nat) : Nat :=
  if b < 0x80 then b else b + 0xff00

/-- The fatal conditions of `tick`, one per distinct panic site of the
source. -/
inductive CpuErr where
  /-- `panic!("Unhandled opcode!")` — the wildcard dispatch arm. -/
  | unhandledOpcode
  /-- `panic!("Memory operands not supported yet!")` — opcodes 0x32, 0x8c,
  0x8e with a memory `rm`. -/
  | memoryOperandsNotSupported
  /-- `panic!("Opcode doesn't support memory operands!")` — opcodes 0xd0,
  0xd2 with a memory `rm`. -/
  | opcodeNoMemoryOperands
  /-- `panic!("Unimplemented group opcode!")` — opcodes 0xd0, 0xd2 with a
  ModRM group field other than 4 or 5. -/
  | unimplementedGroupOpcode
  /-- The `Option::unwrap` panic on `Flags::from_bits(...)` in the SAHF
  (0x9e) handler. -/
  | flagsFromBitsUnwrap
deriving DecidableEq, Repr

/-- The `while count != 0` loop of `shl reg, cl` (opcode 0xd2, group 4):
on each iteration carry is set from bit 7 of the current value, then the
value is shifted left one position (`u8` wrap).  Returns the final
`(flags, reg)` pair.  The recursion is structural on `count`
(`count.wrapping_sub(1)` with `count != 0` is `count - 1`). -/
def shlClLoop : Nat → Nat → Nat → Nat × Nat
  | 0, flags, reg => (flags, reg)
  | count + 1, flags, reg =>
    shlClLoop count (Flags.set flags Flags.CARRY (reg &&& 0x80 == 0x80)) ((reg <<< 1) &&& 0xff)

/-- The `while count != 0` loop of `shr reg, cl` (opcode 0xd2, group 5):
carry from bit 0, then a right shift. -/
def shrClLoop : Nat → Nat → Nat → Nat × Nat
  | 0, flags, reg => (flags, reg)
  | count + 1, flags, reg =>
    shrClLoop count (Flags.set flags Flags.CARRY (reg &&& 1 == 1)) (reg >>> 1)

/-- `Cpu8086::tick`: fetch the opcode byte at `CS:IP`, record it in
`self.opcode`, dispatch.  A panic of the source is returned as
`(some err, state)` where `state` holds exactly the mutations performed
before the panic; normal completion is `(none, state)`.

The `Reg8::from_num(..).unwrap()` / `Reg16::from_num(..).unwrap()` /
`SegReg::from_num(..).unwrap()` calls of the source can never panic
(`from_num` matches on `num & 7` resp. `num & 3`, which is total), so they
are rendered with `Option.getD`. -/
def tick (mem : Mem) (cpu : Cpu8086) : Option CpuErr × Cpu8086 :=
  let cs := cpu.regs.readseg16 SegReg.CS
  let op := memReadByte mem cs cpu.regs.ip
  match op with
  | 0x32 =>  -- xor reg, rm
    let modrm := memReadByte mem cs (wadd16 cpu.regs.ip 1)
    let ip2 := wadd16 cpu.regs.ip 2
    let ps := get_opcode_params_from_modrm modrm
    match ps.rm with
    | Operand.Memory _ _ =>
      (some CpuErr.memoryOperandsNotSupported,
        { cpu with opcode := op, regs := { cpu.regs with ip := ip2 } })
    | Operand.Register opcode_rm =>
      let f1 := Flags.set (Flags.set cpu.regs.flags Flags.OVERFLOW false) Flags.CARRY false
      match ps.reg with
      | Operand.Register opcode_reg =>
        let result := cpu.regs.read8 ((Reg8.from_num opcode_reg).getD Reg8.AL) ^^^
            cpu.regs.read8 ((Reg8.from_num opcode_rm).getD Reg8.AL)
        let f2 := Flags.set f1 Flags.ZERO (result == 0)
        let f3 := Flags.set f2 Flags.SIGN (result &&& 0x80 == 0x80)
        let cpu1 := Cpu8086.set_parity_flag
          { cpu with opcode := op, regs := { cpu.regs with ip := ip2, flags := f3 } } result
        (none, { cpu1 with regs :=
            cpu1.regs.write8 ((Reg8.from_num opcode_reg).getD Reg8.AL) result })
      | Operand.Memory _ _ =>  -- if-let fallthrough, unreachable in the model
        (none, { cpu with opcode := op, regs := { cpu.regs with ip := ip2, flags := f1 } })
  | 0x70 =>  -- jo
    let offset := sext8 (memReadByte mem cs (wadd16 cpu.regs.ip 1))
    let ip2 := wadd16 cpu.regs.ip 2
    let ipf := if Flags.contains cpu.regs.flags Flags.OVERFLOW then wadd16 ip2 offset else ip2
    (none, { cpu with opcode := op, regs := { cpu.regs with ip := ipf } })
  | 0x71 =>  -- jno
    let offset := sext8 (memReadByte mem cs (wadd16 cpu.regs.ip 1))
    let ip2 := wadd16 cpu.regs.ip 2
    let ipf := if Flags.contains cpu.regs.flags Flags.OVERFLOW then ip2 else wadd16 ip2 offset
    (none, { cpu with opcode := op, regs := { cpu.regs with ip := ipf } })
  | 0x72 =>  -- jc
    let offset := sext8 (memReadByte mem cs (wadd16 cpu.regs.ip 1))
    let ip2 := wadd16 cpu.regs.ip 2
    let ipf := if Flags.contains cpu.regs.flags Flags.CARRY then wadd16 ip2 offset else ip2
    (none, { cpu with opcode := op, regs := { cpu.regs with ip := ipf } })
  | 0x73 =>  -- jnc
    let offset := sext8 (memReadByte mem cs (wadd16 cpu.regs.ip 1))
    let ip2 := wadd16 cpu.regs.ip 2
    let ipf := if Flags.contains cpu.regs.flags Flags.CARRY then ip2 else wadd16 ip2 offset
    (none, { cpu with opcode := op, regs := { cpu.regs with ip := ipf } })
  | 0x74 =>  -- jz
    let offset := sext8 (memReadByte mem cs (wadd16 cpu.regs.ip 1))
    let ip2 := wadd16 cpu.regs.ip 2
    let ipf := if Flags.contains cpu.regs.flags Flags.ZERO then wadd16 ip2 offset else ip2
    (none, { cpu with opcode := op, regs := { cpu.regs with ip := ipf } })
  | 0x75 =>  -- jnz
    let offset := sext8 (memReadByte mem cs (wadd16 cpu.regs.ip 1))
    let ip2 := wadd16 cpu.regs.ip 2
    let ipf := if Flags.contains cpu.regs.flags Flags.ZERO then ip2 else wadd16 ip2 offset
    (none, { cpu with opcode := op, regs := { cpu.regs with ip := ipf } })
  | 0x78 =>  -- js
    let offset := sext8 (memReadByte mem cs (wadd16 cpu.regs.ip 1))
    let ip2 := wadd16 cpu.regs.ip 2
    let ipf := if Flags.contains cpu.regs.flags Flags.SIGN then wadd16 ip2 offset else ip2
    (none, { cpu with opcode := op, regs := { cpu.regs with ip := ipf } })
  | 0x79 =>  -- jns
    let offset := sext8 (memReadByte mem cs (wadd16 cpu.regs.ip 1))
    let ip2 := wadd16 cpu.regs.ip 2
    let ipf := if Flags.contains cpu.regs.flags Flags.SIGN then ip2 else wadd16 ip2 offset
    (none, { cpu with opcode := op, regs := { cpu.regs with ip := ipf } })
  | 0x7a =>  -- jp
    let offset := sext8 (memReadByte mem cs (wadd16 cpu.regs.ip 1))
    let ip2 := wadd16 cpu.regs.ip 2
    let ipf := if Flags.contains cpu.regs.flags Flags.PARITY then wadd16 ip2 offset else ip2
    (none, { cpu with opcode := op, regs := { cpu.regs with ip := ipf } })
  | 0x7b =>  -- jnp
    let offset := sext8 (memReadByte mem cs (wadd16 cpu.regs.ip 1))
    let ip2 := wadd16 cpu.regs.ip 2
    let ipf := if Flags.contains cpu.regs.flags Flags.PARITY then ip2 else wadd16 ip2 offset
    (none, { cpu with opcode := op, regs := { cpu.regs with ip := ipf } })
  | 0x8c =>  -- mov rm, seg
    let modrm := memReadByte mem cs (wadd16 cpu.regs.ip 1)
    let ip2 := wadd16 cpu.regs.ip 2
    let ps := get_opcode_params_from_modrm modrm
    match ps.rm with
    | Operand.Memory _ _ =>
      (some CpuErr.memoryOperandsNotSupported,
        { cpu with opcode := op, regs := { cpu.regs with ip := ip2 } })
    | Operand.Register opcode_rm =>
      match ps.reg with
      | Operand.Register opcode_reg =>
        (none, { cpu with opcode := op, regs :=
            (Registers.write16 { cpu.regs with ip := ip2 }
              ((Reg16.from_num opcode_rm).getD Reg16.AX)
              (cpu.regs.readseg16 ((SegReg.from_num opcode_reg).getD SegReg.ES))) })
      | Operand.Memory _ _ =>
        (none, { cpu with opcode := op, regs := { cpu.regs with ip := ip2 } })
  | 0x8e =>  -- mov seg, rm
    let modrm := memReadByte mem cs (wadd16 cpu.regs.ip 1)
    let ip2 := wadd16 cpu.regs.ip 2
    let ps := get_opcode_params_from_modrm modrm
    match ps.rm with
    | Operand.Memory _ _ =>
      (some CpuErr.memoryOperandsNotSupported,
        { cpu with opcode := op, regs := { cpu.regs with ip := ip2 } })
    | Operand.Register opcode_rm =>
      match ps.reg with
      | Operand.Register opcode_reg =>
        (none, { cpu with opcode := op, regs :=
            (Registers.writeseg16 { cpu.regs with ip := ip2 }
              ((SegReg.from_num opcode_reg).getD SegReg.ES)
              (cpu.regs.read16 ((Reg16.from_num opcode_rm).getD Reg16.AX))) })
      | Operand.Memory _ _ =>
        (none, { cpu with opcode := op, regs := { cpu.regs with ip := ip2 } })
  | 0x9e =>  -- sahf
    match Flags.from_bits ((cpu.regs.flags &&& 0xff02) ||| cpu.regs.read8 Reg8.AH) with
    | none => (some CpuErr.flagsFromBitsUnwrap, { cpu with opcode := op })
    | some f =>
      (none, { cpu with opcode := op, regs :=
          { cpu.regs with flags := f, ip := wadd16 cpu.regs.ip 1 } })
  | 0x9f =>  -- lahf
    (none, { cpu with opcode := op, regs :=
        { cpu.regs.write8 Reg8.AH (cpu.regs.flags &&& 0xd5) with ip := wadd16 cpu.regs.ip 1 } })
  | 0xb0 =>  -- mov al, imm
    let imm := memReadByte mem cs (wadd16 cpu.regs.ip 1)
    (none, { cpu with opcode := op, regs :=
        { cpu.regs.write8 Reg8.AL imm with ip := wadd16 cpu.regs.ip 2 } })
  | 0xb1 =>  -- mov cl, imm
    let imm := memReadByte mem cs (wadd16 cpu.regs.ip 1)
    (none, { cpu with opcode := op, regs :=
        { cpu.regs.write8 Reg8.CL imm with ip := wadd16 cpu.regs.ip 2 } })
  | 0xb2 =>  -- mov dl, imm
    let imm := memReadByte mem cs (wadd16 cpu.regs.ip 1)
    (none, { cpu with opcode := op, regs :=
        { cpu.regs.write8 Reg8.DL imm with ip := wadd16 cpu.regs.ip 2 } })
  | 0xb3 =>  -- mov bl, imm
    let imm := memReadByte mem cs (wadd16 cpu.regs.ip 1)
    (none, { cpu with opcode := op, regs :=
        { cpu.regs.write8 Reg8.BL imm with ip := wadd16 cpu.regs.ip 2 } })
  | 0xb4 =>  -- mov ah, imm
    let imm := memReadByte mem cs (wadd16 cpu.regs.ip 1)
    (none, { cpu with opcode := op, regs :=
        { cpu.regs.write8 Reg8.AH imm with ip := wadd16 cpu.regs.ip 2 } })
  | 0xb5 =>  -- mov ch, imm
    let imm := memReadByte mem cs (wadd16 cpu.regs.ip 1)
    (none, { cpu with opcode := op, regs :=
        { cpu.regs.write8 Reg8.CH imm with ip := wadd16 cpu.regs.ip 2 } })
  | 0xb6 =>  -- mov dh, imm
    let imm := memReadByte mem cs (wadd16 cpu.regs.ip 1)
    (none, { cpu with opcode := op, regs :=
        { cpu.regs.write8 Reg8.DH imm with ip := wadd16 cpu.regs.ip 2 } })
  | 0xb7 =>  -- mov bh, imm
    let imm := memReadByte mem cs (wadd16 cpu.regs.ip 1)
    (none, { cpu with opcode := op, regs :=
        { cpu.regs.write8 Reg8.BH imm with ip := wadd16 cpu.regs.ip 2 } })
  | 0xb8 =>  -- mov ax, imm
    let imm := memReadWord mem cs (wadd16 cpu.regs.ip 1)
    (none, { cpu with opcode := op, regs :=
        { cpu.regs.write16 Reg16.AX imm with ip := wadd16 cpu.regs.ip 3 } })
  | 0xb9 =>  -- mov cx, imm
    let imm := memReadWord mem cs (wadd16 cpu.regs.ip 1)
    (none, { cpu with opcode := op, regs :=
        { cpu.regs.write16 Reg16.CX imm with ip := wadd16 cpu.regs.ip 3 } })
  | 0xba =>  -- mov dx, imm
    let imm := memReadWord mem cs (wadd16 cpu.regs.ip 1)
    (none, { cpu with opcode := op, regs :=
        { cpu.regs.write16 Reg16.DX imm with ip := wadd16 cpu.regs.ip 3 } })
  | 0xbb =>  -- mov bx, imm
    let imm := memReadWord mem cs (wadd16 cpu.regs.ip 1)
    (none, { cpu with opcode := op, regs :=
        { cpu.regs.write16 Reg16.BX imm with ip := wadd16 cpu.regs.ip 3 } })
  | 0xd0 =>  -- shift group, by 1
    let modrm := memReadByte mem cs (wadd16 cpu.regs.ip 1)
    let ip2 := wadd16 cpu.regs.ip 2
    let ps := get_opcode_params_from_modrm modrm
    match ps.rm with
    | Operand.Memory _ _ =>
      (some CpuErr.opcodeNoMemoryOperands,
        { cpu with opcode := op, regs := { cpu.regs with ip := ip2 } })
    | Operand.Register opcode_reg =>
      match (modrm &&& 0x38) >>> 3 with
      | 4 =>  -- shl reg, 1
        let reg := cpu.regs.read8 ((Reg8.from_num opcode_reg).getD Reg8.AL)
        let f1 := Flags.set cpu.regs.flags Flags.CARRY (reg &&& 1 == 1)
        let overflow_calc := ((reg >>> 7) &&& 1) ^^^ ((reg >>> 6) &&& 1)
        let f2 := Flags.set f1 Flags.OVERFLOW (overflow_calc == 1)
        (none, { cpu with opcode := op, regs :=
            (Registers.write8 { cpu.regs with ip := ip2, flags := f2 }
              ((Reg8.from_num opcode_reg).getD Reg8.AL) ((reg <<< 1) &&& 0xff)) })
      | 5 =>  -- shr reg, 1
        let reg := cpu.regs.read8 ((Reg8.from_num opcode_reg).getD Reg8.AL)
        let f1 := Flags.set cpu.regs.flags Flags.CARRY (reg &&& 1 == 1)
        let f2 := Flags.set f1 Flags.OVERFLOW (reg &&& 0x80 == 0x80)
        (none, { cpu with opcode := op, regs :=
            (Registers.write8 { cpu.regs with ip := ip2, flags := f2 }
              ((Reg8.from_num opcode_reg).getD Reg8.AL) (reg >>> 1)) })
      | _ =>
        (some CpuErr.unimplementedGroupOpcode,
          { cpu with opcode := op, regs := { cpu.regs with ip := ip2 } })
  | 0xd2 =>  -- shift group, by CL
    let modrm := memReadByte mem cs (wadd16 cpu.regs.ip 1)
    let ip2 := wadd16 cpu.regs.ip 2
    let ps := get_opcode_params_from_modrm modrm
    match ps.rm with
    | Operand.Memory _ _ =>
      (some CpuErr.opcodeNoMemoryOperands,
        { cpu with opcode := op, regs := { cpu.regs with ip := ip2 } })
    | Operand.Register opcode_reg =>
      match (modrm &&& 0x38) >>> 3 with
      | 4 =>  -- shl reg, cl
        let count := cpu.regs.read8 Reg8.CL
        let reg := cpu.regs.read8 ((Reg8.from_num opcode_reg).getD Reg8.AL)
        let fr := shlClLoop count cpu.regs.flags reg
        (none, { cpu with opcode := op, regs :=
            (Registers.write8 { cpu.regs with ip := ip2, flags := fr.1 }
              ((Reg8.from_num opcode_reg).getD Reg8.AL) fr.2) })
      | 5 =>  -- shr reg, cl
        let count := cpu.regs.read8 Reg8.CL
        let reg := cpu.regs.read8 ((Reg8.from_num opcode_reg).getD Reg8.AL)
        let fr := shrClLoop count cpu.regs.flags reg
        (none, { cpu with opcode := op, regs :=
            (Registers.write8 { cpu.regs with ip := ip2, flags := fr.1 }
              ((Reg8.from_num opcode_reg).getD Reg8.AL) fr.2) })
      | _ =>
        (some CpuErr.unimplementedGroupOpcode,
          { cpu with opcode := op, regs := { cpu.regs with ip := ip2 } })
  | 0xe9 =>  -- jmp near
    let offset := memReadWord mem cs (wadd16 cpu.regs.ip 1)
    (none, { cpu with opcode := op, regs :=
        { cpu.regs with ip := wadd16 cpu.regs.ip offset } })
  | 0xea =>  -- jmp far
    let offset := memReadWord mem cs (wadd16 cpu.regs.ip 1)
    let segment := memReadWord mem cs (wadd16 cpu.regs.ip 3)
    (none, { cpu with opcode := op, regs :=
        { cpu.regs.writeseg16 SegReg.CS segment with ip := offset } })
  | 0xf8 =>  -- clc
    (none, { cpu with opcode := op, regs :=
        { cpu.regs with flags := Flags.set cpu.regs.flags Flags.CARRY false,
                        ip := wadd16 cpu.regs.ip 1 } })
  | 0xf9 =>  -- stc
    (none, { cpu with opcode := op, regs :=
        { cpu.regs with flags := Flags.set cpu.regs.flags Flags.CARRY true,
                        ip := wadd16 cpu.regs.ip 1 } })
  | 0xfa =>  -- cli
    (none, { cpu with opcode := op, regs :=
        { cpu.regs with flags := Flags.set cpu.regs.flags Flags.INTERRUPT false,
                        ip := wadd16 cpu.regs.ip 1 } })
  | 0xfb =>  -- sti
    (none, { cpu with opcode := op, regs :=
        { cpu.regs with flags := Flags.set cpu.regs.flags Flags.INTERRUPT true,
                        ip := wadd16 cpu.regs.ip 1 } })
  | 0xfc =>  -- cld
    (none, { cpu with opcode := op, regs :=
        { cpu.regs with flags := Flags.set cpu.regs.flags Flags.DIRECTION false,
                        ip := wadd16 cpu.regs.ip 1 } })
  | 0xfd =>  -- std
    (none, { cpu with opcode := op, regs :=
        { cpu.regs with flags := Flags.set cpu.regs.flags Flags.DIRECTION true,
                        ip := wadd16 cpu.regs.ip 1 } })
  | _ => (some CpuErr.unhandledOpcode, { cpu with opcode := op })

/-! ## Reference tables used by the statements

These tables transcribe the claim material (which opcodes are in the
dispatch table, which flag each conditional jump tests, which panic each
operand-rejecting opcode raises); the theorems below relate them to
`tick`. -/

/-- The conditional-jump opcodes and their conditions: the tested flag and
the polarity (`true` = branch taken when the flag is set). -/
def jccCond : Nat → Option (Nat × Bool)
  | 0x70 => some (Flags.OVERFLOW, true)
  | 0x71 => some (Flags.OVERFLOW, false)
  | 0x72 => some (Flags.CARRY, true)
  | 0x73 => some (Flags.CARRY, false)
  | 0x74 => some (Flags.ZERO, true)
  | 0x75 => some (Flags.ZERO, false)
  | 0x78 => some (Flags.SIGN, true)
  | 0x79 => some (Flags.SIGN, false)
  | 0x7a => some (Flags.PARITY, true)
  | 0x7b => some (Flags.PARITY, false)
  | _ => none

/-- The opcode bytes that have an arm in the dispatch `match` of `tick`. -/
def opcodeInTable (b : Nat) : Bool :=
  match b with
  | 0x32 | 0x70 | 0x71 | 0x72 | 0x73 | 0x74 | 0x75 | 0x78 | 0x79 | 0x7a | 0x7b
  | 0x8c | 0x8e | 0x9e | 0x9f
  | 0xb0 | 0xb1 | 0xb2 | 0xb3 | 0xb4 | 0xb5 | 0xb6 | 0xb7 | 0xb8 | 0xb9 | 0xba | 0xbb
  | 0xd0 | 0xd2 | 0xe9 | 0xea | 0xf8 | 0xf9 | 0xfa | 0xfb | 0xfc | 0xfd => true
  | _ => false

/-- The error each register-only opcode raises when its decoded `rm`
operand is a memory reference. -/
def memPanicErr : Nat → Option CpuErr
  | 0x32 | 0x8c | 0x8e => some CpuErr.memoryOperandsNotSupported
  | 0xd0 | 0xd2 => some CpuErr.opcodeNoMemoryOperands
  | _ => none

/-! ## Bit-manipulation lemmas -/

lemma and255_eq_mod (x : Nat) : x &&& 0xff = x % 256 := by
  have h : (0xff : Nat) = 2 ^ 8 - 1 := by norm_num
  rw [h, Nat.and_pow_two_sub_one_eq_mod]

lemma and_mask_lt (x m : Nat) (h : m < 256) : x &&& m < 256 :=
  lt_of_le_of_lt (Nat.and_le_right) h

lemma testBit_255 (i : Nat) : (0xff : Nat).testBit i = decide (i < 8) := by
  have h : (0xff : Nat) = 2 ^ 8 - 1 := by norm_num
  rw [h, Nat.testBit_two_pow_sub_one]

lemma testBit_ff00 (i : Nat) :
    (0xff00 : Nat).testBit i = (decide (8 ≤ i) && decide (i - 8 < 8)) := by
  have h : (0xff00 : Nat) = (2 ^ 8 - 1) <<< 8 := by decide
  rw [h, Nat.testBit_shiftLeft, Nat.testBit_two_pow_sub_one]

lemma testBit_of_lt_256 {x : Nat} (hx : x < 256) {i : Nat} (hi : 8 ≤ i) :
    x.testBit i = false := by
  apply Nat.testBit_lt_two_pow
  have h : (2 : Nat) ^ 8 ≤ 2 ^ i := Nat.pow_le_pow_right (by norm_num) hi
  omega

lemma and_or_cancel (a b : Nat) : (a &&& b) ||| b = b := by
  apply Nat.eq_of_testBit_eq
  intro i
  rw [Nat.testBit_or, Nat.testBit_and]
  cases b.testBit i <;> simp

/-- Writing the low byte over `x` and masking with `0xff` recovers the
byte. -/
lemma low_write_read (x lo : Nat) (hlo : lo < 256) : ((x &&& 0xff00) ||| lo) &&& 0xff = lo := by
  apply Nat.eq_of_testBit_eq
  intro i
  simp only [Nat.testBit_and, Nat.testBit_or, testBit_255, testBit_ff00]
  by_cases h8 : i < 8
  · simp [h8, Nat.not_le.mpr h8]
  · simp [h8, testBit_of_lt_256 hlo (Nat.not_lt.mp h8)]

lemma high_write_read (x hi : Nat) (hhi : hi < 256) :
    ((x &&& 0xff) ||| (hi <<< 8)) &&& 0xff00 = hi <<< 8 := by
  apply Nat.eq_of_testBit_eq
  intro i
  simp only [Nat.testBit_and, Nat.testBit_or, Nat.testBit_shiftLeft, testBit_255, testBit_ff00]
  by_cases h8 : i < 8
  · simp [h8, Nat.not_le.mpr h8]
  · by_cases hb : i - 8 < 8
    · simp [h8, Nat.not_lt.mp h8, hb]
    · simp [h8, Nat.not_lt.mp h8, hb, testBit_of_lt_256 hhi (Nat.not_lt.mp hb)]

lemma low_write_high_read (x lo : Nat) (hlo : lo < 256) :
    (((x &&& 0xff00) ||| lo) >>> 8) &&& 0xff = (x >>> 8) &&& 0xff := by
  apply Nat.eq_of_testBit_eq
  intro i
  simp only [Nat.testBit_and, Nat.testBit_or, Nat.testBit_shiftRight, testBit_255, testBit_ff00]
  by_cases h8 : i < 8
  · have hla : lo.testBit (8 + i) = false := testBit_of_lt_256 hlo (by omega)
    have hm : 8 ≤ 8 + i := by omega
    have hm2 : 8 + i - 8 < 8 := by omega
    simp [h8, hla, hm, hm2]
  · simp [h8]

lemma high_write_low_read (x hi : Nat) :
    ((x &&& 0xff) ||| (hi <<< 8)) &&& 0xff = x &&& 0xff := by
  apply Nat.eq_of_testBit_eq
  intro i
  simp only [Nat.testBit_and, Nat.testBit_or, Nat.testBit_shiftLeft, testBit_255]
  by_cases h8 : i < 8
  · simp [h8, Nat.not_le.mpr h8]
  · simp [h8]

lemma low_write_read8 (x v : Nat) : ((x &&& 0xff00) ||| v) &&& 0xff = v &&& 0xff := by
  apply Nat.eq_of_testBit_eq
  intro i
  simp only [Nat.testBit_and, Nat.testBit_or, testBit_255, testBit_ff00]
  by_cases h8 : i < 8
  · simp [h8, Nat.not_le.mpr h8]
  · simp [h8]

lemma high_write_read8 (x v : Nat) :
    (((x &&& 0xff) ||| (v <<< 8)) >>> 8) &&& 0xff = v &&& 0xff := by
  apply Nat.eq_of_testBit_eq
  intro i
  simp only [Nat.testBit_and, Nat.testBit_or, Nat.testBit_shiftRight, Nat.testBit_shiftLeft,
    testBit_255]
  have e1 : ¬ (8 + i < 8) := by omega
  have e2 : 8 + i - 8 = i := by omega
  simp only [e2, decide_eq_false e1, Bool.and_false, Bool.false_or,
    decide_eq_true (Nat.le_add_right 8 i), Bool.true_and]

/-- `write8` then `read8` of the same register returns the written byte
(truncated to 8 bits). -/
lemma read8_write8_self (s : Registers) (reg : Reg8) (v : Nat) :
    (s.write8 reg v).read8 reg = v &&& 0xff := by
  cases reg <;>
    simp only [Registers.write8, Registers.read8, low_write_read8, high_write_read8]

lemma write8_flags (s : Registers) (reg : Reg8) (v : Nat) :
    (s.write8 reg v).flags = s.flags := by
  cases reg <;> rfl

lemma write8_ip (s : Registers) (reg : Reg8) (v : Nat) :
    (s.write8 reg v).ip = s.ip := by
  cases reg <;> rfl

lemma read8_lt_256 (s : Registers) (reg : Reg8) : s.read8 reg < 256 := by
  cases reg <;> exact and_mask_lt _ _ (by norm_num)

/-- A flag set/clear is invisible through a mask disjoint from the
affected bits. -/
lemma set_and_mask (f m mask : Nat) (b : Bool) (h1 : m &&& mask = 0)
    (h2 : (0xFFFF ^^^ m) &&& mask = mask) :
    (Flags.set f m b) &&& mask = f &&& mask := by
  cases b <;> simp only [Flags.set, Bool.false_eq_true, if_false, if_true]
  · rw [Nat.and_assoc, h2]
  · rw [Nat.and_distrib_right, h1, Nat.or_zero]

lemma contains_set_other (f m m' : Nat) (b : Bool) (h1 : m' &&& m = 0)
    (h2 : (0xFFFF ^^^ m') &&& m = m) :
    Flags.contains (Flags.set f m' b) m = Flags.contains f m := by
  unfold Flags.contains
  rw [set_and_mask f m' m b h1 h2]

lemma contains_set_self (f m : Nat) (c : Bool) (h1 : (0xFFFF ^^^ m) &&& m = 0)
    (h2 : ((0 : Nat) == m) = false) :
    Flags.contains (Flags.set f m c) m = c := by
  cases c <;> simp only [Flags.set, Bool.false_eq_true, if_false, if_true] <;>
    unfold Flags.contains
  · rw [Nat.and_assoc, h1, Nat.and_zero]
    exact h2
  · rw [Nat.and_distrib_right, Nat.and_self, and_or_cancel, beq_self_eq_true]

end EmuPc

namespace EmuPc

/-! ## Concrete scenario inputs -/

/-- Program for the XOR-self scenario: `0x32 0xC0` (`xor al, al`,
register-direct) at the reset vector `CS:IP = 0xFFFF:0x0000`, linear
`0xFFFF0`. -/
def xorScenarioMem : Mem := fun a =>
  if a = 0xffff0 then 0x32 else if a = 0xffff1 then 0xc0 else 0

/-- A freshly reset CPU whose `AL` is `0x55`. -/
def xorScenarioCpu : Cpu8086 :=
  { regs := { Registers.new with gprs0 := 0x55 }, opcode := 0 }

/-- Program consisting of the single byte `0x9E` (SAHF) everywhere. -/
def sahfMem : Mem := fun _ => 0x9e

/-- A freshly reset CPU whose `AH` is `0x08` (bit 3 of the flag byte). -/
def sahfCpu : Cpu8086 :=
  { regs := { Registers.new with gprs0 := 0x0800 }, opcode := 0 }

/-! ## C1 -/

set_option maxRecDepth 4000 in
/-- C1: the claim states `set_parity_flag(v)` sets the parity flag iff the
number of set bits in the low 8 bits of `v` is even.  The code does the
opposite: its loop XORs all bits of `v` together and sets the flag when
the XOR is nonzero, i.e. when the number of set bits is odd.  This theorem
evaluates the code: at `v = 0` (zero set bits, even) the flag is cleared
even when it was previously set; at `v = 1` (odd) it is set; and for every
`v` in `0..=255` the flag equals "popcount of the low 8 bits is odd". -/
theorem c1_set_parity_flag_computes_odd_parity :
    Flags.contains
      ((Cpu8086.set_parity_flag
        { regs := { Registers.new with flags := 0xf006 }, opcode := 0 } 0).regs.flags)
      Flags.PARITY = false ∧
    Flags.contains ((Cpu8086.set_parity_flag Cpu8086.new 1).regs.flags) Flags.PARITY = true ∧
    ((List.range 256).all (fun v =>
      Flags.contains ((Cpu8086.set_parity_flag Cpu8086.new v).regs.flags) Flags.PARITY ==
        ((List.range 8).countP (fun i => v.testBit i) % 2 == 1))) = true := by
  decide

/-! ## C2 -/

/-- C2: the claim states the segment:offset translation maps
`0xFFFF:0x0010` to linear `0x00000`.  The code combines `(seg << 4)` with
the offset using bitwise OR, which cannot carry past bit 19, so it yields
`0xFFFF0` instead; the other two claimed examples do hold.  `physAddr` is
the address computation performed by `mem_read_byte` before every bus
call. -/
theorem c2_address_translation_or_does_not_wrap :
    physAddr 0xffff 0x0010 = 0xffff0 ∧
    physAddr 0xffff 0x0010 ≠ 0x00000 ∧
    physAddr 0x0000 0x0000 = 0x00000 ∧
    physAddr 0x1000 0x0000 = 0x10000 ∧
    memReadByte sahfMem 0xffff 0x0010 = sahfMem 0xffff0 &&& 0xff := by
  decide

/-! ## C3 -/

/-- C3: the claim's own scenario — `AL = 0x55`, executing
`XOR reg, rm` with both fields naming `AL` — requires the result `0x00`
with zero set, sign clear, carry and overflow clear, and **parity set**
(zero set bits, an even number).  The code produces all of that except
parity: `set_parity_flag` computes odd parity, so the parity flag ends up
clear.  The final flags word is `0xF042` (reserved bits and zero flag
only). -/
theorem c3_xor_self_scenario_parity_clear :
    tick xorScenarioMem xorScenarioCpu =
      (none, { regs := { Registers.new with gprs0 := 0, ip := 2, flags := 0xf042 },
               opcode := 0x32 }) ∧
    xorScenarioCpu.regs.read8 Reg8.AL = 0x55 ∧
    (tick xorScenarioMem xorScenarioCpu).snd.regs.read8 Reg8.AL = 0 ∧
    Flags.contains (tick xorScenarioMem xorScenarioCpu).snd.regs.flags Flags.ZERO = true ∧
    Flags.contains (tick xorScenarioMem xorScenarioCpu).snd.regs.flags Flags.SIGN = false ∧
    Flags.contains (tick xorScenarioMem xorScenarioCpu).snd.regs.flags Flags.CARRY = false ∧
    Flags.contains (tick xorScenarioMem xorScenarioCpu).snd.regs.flags Flags.OVERFLOW = false ∧
    Flags.contains (tick xorScenarioMem xorScenarioCpu).snd.regs.flags Flags.PARITY = false := by
  decide

/-! ## C4 -/

/-- C4: the claim states SAHF (0x9E) completes without a fatal error for
every value of `AH`.  The code rebuilds the flags with
`Flags::from_bits(...).unwrap()`; `AH` values with bit 3 or bit 5 set (64
of the 256) produce a bit pattern outside the declared flags, so
`from_bits` returns `None` and the `unwrap` panics.  This theorem
evaluates the code at `AH = 0x08`: the tick aborts with the unwrap panic
and no register (including `ip`) has been mutated. -/
theorem c4_sahf_panics_on_undefined_low_bits :
    tick sahfMem sahfCpu = (some CpuErr.flagsFromBitsUnwrap, { sahfCpu with opcode := 0x9e }) ∧
    sahfCpu.regs.read8 Reg8.AH = 0x08 ∧
    (tick sahfMem sahfCpu).snd.regs = sahfCpu.regs := by
  decide

/-! ## C5 -/

/-- C5: `write16(FLAGS, v)` followed by `read16(FLAGS)` keeps exactly the
defined flag bits of `v` (carry, parity, auxiliary-carry, zero, sign,
trap, interrupt-enable, direction, overflow), clears the undefined bits
(3 and 5 of the low byte), and forces the reserved bits (`DEFAULT =
0xF002`) to their fixed set value. -/
theorem c5_flags_write16_read16_roundtrip (s : Registers) (v : Nat) (_hv : v < 0x10000) :
    (s.write16 Reg16.FLAGS v).read16 Reg16.FLAGS =
      (v &&& (Flags.CARRY ||| Flags.PARITY ||| Flags.ADJUST ||| Flags.ZERO ||| Flags.SIGN |||
        Flags.TRAP ||| Flags.INTERRUPT ||| Flags.DIRECTION ||| Flags.OVERFLOW)) |||
        Flags.DEFAULT := by
  simp only [Registers.write16, Registers.read16, Flags.from_bits_truncate]
  have hALL : Flags.ALL = 0x0fd5 ||| 0xf002 := by decide
  have hmask : (Flags.CARRY ||| Flags.PARITY ||| Flags.ADJUST ||| Flags.ZERO ||| Flags.SIGN |||
      Flags.TRAP ||| Flags.INTERRUPT ||| Flags.DIRECTION ||| Flags.OVERFLOW) = 0x0fd5 := by decide
  have hdef : Flags.DEFAULT = 0xf002 := by decide
  rw [hALL, hmask, hdef, Nat.and_or_distrib_left, Nat.or_assoc, and_or_cancel]

/-- Witness for C5 at `v = 0xAAAA` on a fresh register file. -/
theorem c5_flags_write16_read16_roundtrip_witness :
    (Registers.new.write16 Reg16.FLAGS 0xaaaa).read16 Reg16.FLAGS =
      (0xaaaa &&& (Flags.CARRY ||| Flags.PARITY ||| Flags.ADJUST ||| Flags.ZERO ||| Flags.SIGN |||
        Flags.TRAP ||| Flags.INTERRUPT ||| Flags.DIRECTION ||| Flags.OVERFLOW)) |||
        Flags.DEFAULT :=
  c5_flags_write16_read16_roundtrip Registers.new 0xaaaa (by decide)

/-! ## C6 -/

/-- C6: for each of the four aliased registers (accumulator `AX`, counter
`CX`, data `DX`, base `BX`): writing the low and the high byte through
`write8`, in either order, leaves the 16-bit register read through
`read16` equal to `(high <<< 8) ||| low`, and writing one half leaves the
`read8` value of the other half unchanged. -/
theorem c6_gpr_half_aliasing (s : Registers) (lo hi : Nat) (hlo : lo < 256) (hhi : hi < 256) :
    (((s.write8 Reg8.AL lo).write8 Reg8.AH hi).read16 Reg16.AX = (hi <<< 8) ||| lo ∧
      ((s.write8 Reg8.AH hi).write8 Reg8.AL lo).read16 Reg16.AX = (hi <<< 8) ||| lo ∧
      (s.write8 Reg8.AL lo).read8 Reg8.AH = s.read8 Reg8.AH ∧
      (s.write8 Reg8.AH hi).read8 Reg8.AL = s.read8 Reg8.AL) ∧
    (((s.write8 Reg8.CL lo).write8 Reg8.CH hi).read16 Reg16.CX = (hi <<< 8) ||| lo ∧
      ((s.write8 Reg8.CH hi).write8 Reg8.CL lo).read16 Reg16.CX = (hi <<< 8) ||| lo ∧
      (s.write8 Reg8.CL lo).read8 Reg8.CH = s.read8 Reg8.CH ∧
      (s.write8 Reg8.CH hi).read8 Reg8.CL = s.read8 Reg8.CL) ∧
    (((s.write8 Reg8.DL lo).write8 Reg8.DH hi).read16 Reg16.DX = (hi <<< 8) ||| lo ∧
      ((s.write8 Reg8.DH hi).write8 Reg8.DL lo).read16 Reg16.DX = (hi <<< 8) ||| lo ∧
      (s.write8 Reg8.DL lo).read8 Reg8.DH = s.read8 Reg8.DH ∧
      (s.write8 Reg8.DH hi).read8 Reg8.DL = s.read8 Reg8.DL) ∧
    (((s.write8 Reg8.BL lo).write8 Reg8.BH hi).read16 Reg16.BX = (hi <<< 8) ||| lo ∧
      ((s.write8 Reg8.BH hi).write8 Reg8.BL lo).read16 Reg16.BX = (hi <<< 8) ||| lo ∧
      (s.write8 Reg8.BL lo).read8 Reg8.BH = s.read8 Reg8.BH ∧
      (s.write8 Reg8.BH hi).read8 Reg8.BL = s.read8 Reg8.BL) := by
  refine ⟨⟨?_, ?_, ?_, ?_⟩, ⟨?_, ?_, ?_, ?_⟩, ⟨?_, ?_, ?_, ?_⟩, ⟨?_, ?_, ?_, ?_⟩⟩ <;>
    simp only [Registers.write8, Registers.read8, Registers.read16] <;>
    first
      | rw [low_write_read _ _ hlo, Nat.or_comm]
      | rw [high_write_read _ _ hhi]
      | rw [low_write_high_read _ _ hlo]
      | rw [high_write_low_read]

/-- Witness for C6: `AL := 0x34` then `AH := 0x12` reads back as `0x1234`
(in the claim's `(high <<< 8) ||| low` form). -/
theorem c6_gpr_half_aliasing_witness :
    ((Registers.new.write8 Reg8.AL 0x34).write8 Reg8.AH 0x12).read16 Reg16.AX =
      (0x12 <<< 8) ||| 0x34 :=
  (c6_gpr_half_aliasing Registers.new 0x34 0x12 (by decide) (by decide)).1.1

end EmuPc

namespace EmuPc

/-! ## C7 -/

set_option maxHeartbeats 1600000 in
/-- C7: opcode 0xD0 with a register-direct ModRM byte (mode bits `0b11`).
With group sub-field 4 (shift left by 1) the selected 8-bit register
becomes `(reg <<< 1) mod 256`, carry is set from bit 0 of the pre-shift
value, and overflow is set iff bit 7 XOR bit 6 of the pre-shift value is
1.  With sub-field 5 (shift right by 1) the register becomes `reg >>> 1`,
carry is set from bit 0 of the pre-shift value, and overflow is set iff
bit 7 of the pre-shift value is set.  No flag outside carry and overflow
changes (`0xF7FE` masks all 16 flag bits except them), and `ip` advances
by 2. -/
theorem c7_shift_by_one_register_direct (mem : Mem) (cpu : Cpu8086) (modrm : Nat)
    (hop : memReadByte mem (cpu.regs.readseg16 SegReg.CS) cpu.regs.ip = 0xd0)
    (hmod : memReadByte mem (cpu.regs.readseg16 SegReg.CS) (wadd16 cpu.regs.ip 1) = modrm)
    (hmode : (modrm &&& 0xc0) >>> 6 = 3) :
    (∀ e s', (modrm &&& 0x38) >>> 3 = 4 → tick mem cpu = (e, s') →
      let reg8 := (Reg8.from_num (modrm &&& 7)).getD Reg8.AL
      let v := cpu.regs.read8 reg8
      e = none ∧
      s'.regs.read8 reg8 = (v <<< 1) % 256 ∧
      (Flags.contains s'.regs.flags Flags.CARRY = (v &&& 1 == 1)) ∧
      (Flags.contains s'.regs.flags Flags.OVERFLOW =
        (((v >>> 7) &&& 1) ^^^ ((v >>> 6) &&& 1) == 1)) ∧
      s'.regs.flags &&& 0xf7fe = cpu.regs.flags &&& 0xf7fe ∧
      s'.regs.ip = wadd16 cpu.regs.ip 2) ∧
    (∀ e s', (modrm &&& 0x38) >>> 3 = 5 → tick mem cpu = (e, s') →
      let reg8 := (Reg8.from_num (modrm &&& 7)).getD Reg8.AL
      let v := cpu.regs.read8 reg8
      e = none ∧
      s'.regs.read8 reg8 = v >>> 1 ∧
      (Flags.contains s'.regs.flags Flags.CARRY = (v &&& 1 == 1)) ∧
      (Flags.contains s'.regs.flags Flags.OVERFLOW = (v &&& 0x80 == 0x80)) ∧
      s'.regs.flags &&& 0xf7fe = cpu.regs.flags &&& 0xf7fe ∧
      s'.regs.ip = wadd16 cpu.regs.ip 2) := by
  constructor
  · intro e s' hgrp ht
    simp only [tick] at ht
    rw [hop, hmod] at ht
    dsimp only [get_opcode_params_from_modrm] at ht
    rw [if_pos hmode] at ht
    dsimp only at ht
    rw [hgrp] at ht
    dsimp only at ht
    injection ht with h1 h2
    subst h1
    subst h2
    refine ⟨rfl, ?_, ?_, ?_, ?_, ?_⟩
    · rw [read8_write8_self, Nat.and_assoc]
      have h : (0xff &&& 0xff : Nat) = 0xff := by decide
      rw [h, and255_eq_mod]
    · rw [write8_flags]
      dsimp only
      rw [contains_set_other _ _ _ _ (by decide) (by decide),
        contains_set_self _ _ _ (by decide) (by decide)]
    · rw [write8_flags]
      dsimp only
      rw [contains_set_self _ _ _ (by decide) (by decide)]
    · rw [write8_flags]
      dsimp only
      rw [set_and_mask _ _ _ _ (by decide) (by decide),
        set_and_mask _ _ _ _ (by decide) (by decide)]
    · rw [write8_ip]
  · intro e s' hgrp ht
    simp only [tick] at ht
    rw [hop, hmod] at ht
    dsimp only [get_opcode_params_from_modrm] at ht
    rw [if_pos hmode] at ht
    dsimp only at ht
    rw [hgrp] at ht
    dsimp only at ht
    injection ht with h1 h2
    subst h1
    subst h2
    have hv : cpu.regs.read8 ((Reg8.from_num (modrm &&& 7)).getD Reg8.AL) < 256 :=
      read8_lt_256 _ _
    refine ⟨rfl, ?_, ?_, ?_, ?_, ?_⟩
    · rw [read8_write8_self, and255_eq_mod]
      apply Nat.mod_eq_of_lt
      have h2 : cpu.regs.read8 ((Reg8.from_num (modrm &&& 7)).getD Reg8.AL) >>> 1 ≤
          cpu.regs.read8 ((Reg8.from_num (modrm &&& 7)).getD Reg8.AL) := by
        rw [Nat.shiftRight_eq_div_pow]
        exact Nat.div_le_self _ _
      omega
    · rw [write8_flags]
      dsimp only
      rw [contains_set_other _ _ _ _ (by decide) (by decide),
        contains_set_self _ _ _ (by decide) (by decide)]
    · rw [write8_flags]
      dsimp only
      rw [contains_set_self _ _ _ (by decide) (by decide)]
    · rw [write8_flags]
      dsimp only
      rw [set_and_mask _ _ _ _ (by decide) (by decide),
        set_and_mask _ _ _ _ (by decide) (by decide)]
    · rw [write8_ip]

/-- Program `0xD0 0xE3` (`shl bl, 1`, register-direct, group 4, rm = BL)
at the reset vector. -/
def shlScenarioMem : Mem := fun a =>
  if a = 0xffff0 then 0xd0 else if a = 0xffff1 then 0xe3 else 0

/-- A freshly reset CPU whose `BL` is `0x55`. -/
def shlScenarioCpu : Cpu8086 :=
  { regs := { Registers.new with gprs3 := 0x55 }, opcode := 0 }

/-- Witness for C7: `shl bl, 1` with `BL = 0x55` gives `BL = 0xAA`,
carry from bit 0 (set) and overflow from bit7 XOR bit6 (set). -/
theorem c7_shift_by_one_register_direct_witness :
    (tick shlScenarioMem shlScenarioCpu).snd.regs.read8 Reg8.BL = (0x55 <<< 1) % 256 ∧
    (Flags.contains (tick shlScenarioMem shlScenarioCpu).snd.regs.flags Flags.CARRY =
      (0x55 &&& 1 == 1)) ∧
    (Flags.contains (tick shlScenarioMem shlScenarioCpu).snd.regs.flags Flags.OVERFLOW =
      (((0x55 >>> 7) &&& 1) ^^^ ((0x55 >>> 6) &&& 1) == 1)) := by
  have h := (c7_shift_by_one_register_direct shlScenarioMem shlScenarioCpu 0xe3
      (by decide) (by decide) (by decide)).1
    (tick shlScenarioMem shlScenarioCpu).fst (tick shlScenarioMem shlScenarioCpu).snd
    (by decide) rfl
  exact ⟨h.2.1, h.2.2.1, h.2.2.2.1⟩

/-! ## C8 -/

/-- A bus that returns `0xF6` everywhere. -/
def memF6 : Mem := fun _ => 0xf6

/-- A bus that returns `0xF7` everywhere. -/
def memF7 : Mem := fun _ => 0xf7

/-- C8, counterexample to "raised as the distinct error kind
`UnimplementedOpcode` carrying the offending byte": the wildcard dispatch
arm is `panic!("Unhandled opcode!")`, one fixed panic with no payload.
Dispatching the unknown bytes `0xF6` and `0xF7` produces the *same* fatal
error value, so the error does not carry the offending byte; only the
CPU's diagnostic `opcode` field (register state, not the error)
distinguishes the two runs. -/
theorem c8_unknown_opcode_error_carries_no_byte :
    (tick memF6 Cpu8086.new).fst = some CpuErr.unhandledOpcode ∧
    (tick memF7 Cpu8086.new).fst = some CpuErr.unhandledOpcode ∧
    (tick memF6 Cpu8086.new).fst = (tick memF7 Cpu8086.new).fst ∧
    (tick memF6 Cpu8086.new).snd.opcode = 0xf6 ∧
    (tick memF7 Cpu8086.new).snd.opcode = 0xf7 := by
  decide

set_option maxHeartbeats 3200000 in
/-- C8, amended: dispatching any opcode byte absent from the dispatch
table is unconditionally fatal with the single unhandled-opcode panic
(which does not carry the byte), and no register state (`ip`,
general-purpose registers, segment registers, flags) is mutated before
the abort — only the diagnostic last-opcode field is updated. -/
theorem c8_unknown_opcode_fatal_preserves_registers (mem : Mem) (cpu : Cpu8086) (b : Nat)
    (hop : memReadByte mem (cpu.regs.readseg16 SegReg.CS) cpu.regs.ip = b)
    (htab : opcodeInTable b = false) :
    tick mem cpu = (some CpuErr.unhandledOpcode, { cpu with opcode := b }) := by
  simp only [tick]
  rw [hop]
  split
  all_goals try rfl
  all_goals simp [opcodeInTable] at htab

/-- Witness for C8 at the claim's example byte `0xF6`. -/
theorem c8_unknown_opcode_fatal_preserves_registers_witness :
    tick memF6 Cpu8086.new = (some CpuErr.unhandledOpcode, { Cpu8086.new with opcode := 0xf6 }) :=
  c8_unknown_opcode_fatal_preserves_registers memF6 Cpu8086.new 0xf6 (by decide) (by decide)

/-! ## C9 -/

set_option maxHeartbeats 3200000 in
/-- C9: every implemented conditional-jump opcode (`0x70`-`0x75`,
`0x78`-`0x7B`, tabulated in `jccCond` with its tested flag and polarity)
leaves `ip` at `original + 2` (mod 2^16) when the condition is false and
at `original + 2` plus the sign-extended displacement (mod 2^16) when it
is true; flags and all other registers are unchanged. -/
theorem c9_conditional_jump_displacement (mem : Mem) (cpu : Cpu8086) (opb flag : Nat)
    (pos : Bool) (d : Nat)
    (htab : jccCond opb = some (flag, pos))
    (hop : memReadByte mem (cpu.regs.readseg16 SegReg.CS) cpu.regs.ip = opb)
    (hd : memReadByte mem (cpu.regs.readseg16 SegReg.CS) (wadd16 cpu.regs.ip 1) = d) :
    tick mem cpu = (none, { cpu with opcode := opb, regs := { cpu.regs with ip :=
      (if Flags.contains cpu.regs.flags flag = pos then wadd16 (wadd16 cpu.regs.ip 2) (sext8 d)
        else wadd16 cpu.regs.ip 2) } }) := by
  unfold jccCond at htab
  split at htab <;>
    try exact Option.noConfusion htab
  all_goals
    injection htab with h1
  all_goals
    injection h1 with hflag hpos
  all_goals
    subst hflag
  all_goals
    subst hpos
  all_goals
    simp only [tick]
  all_goals
    rw [hop, hd]
  all_goals
    dsimp only
  all_goals
    split <;> rename_i hc <;> simp [hc]

/-- Program `0x74 0x05` (`jz +5`) at the reset vector. -/
def jzScenarioMem : Mem := fun a =>
  if a = 0xffff0 then 0x74 else if a = 0xffff1 then 5 else 0

/-- A freshly reset CPU with the zero flag set. -/
def jzScenarioCpuZ : Cpu8086 :=
  { regs := { Registers.new with flags := 0xf042 }, opcode := 0 }

/-- Witness for C9: `jz +5` from `ip = 0` lands at `7` with the zero flag
set and at `2` (just past the 2-byte encoding) with it clear. -/
theorem c9_conditional_jump_displacement_witness :
    (tick jzScenarioMem jzScenarioCpuZ = (none,
      { jzScenarioCpuZ with
          opcode := 0x74,
          regs := { jzScenarioCpuZ.regs with ip :=
            (if Flags.contains jzScenarioCpuZ.regs.flags Flags.ZERO = true then
              wadd16 (wadd16 jzScenarioCpuZ.regs.ip 2) (sext8 5)
            else wadd16 jzScenarioCpuZ.regs.ip 2) } })) ∧
    (tick jzScenarioMem Cpu8086.new = (none,
      { Cpu8086.new with
          opcode := 0x74,
          regs := { Cpu8086.new.regs with ip :=
            (if Flags.contains Cpu8086.new.regs.flags Flags.ZERO = true then
              wadd16 (wadd16 Cpu8086.new.regs.ip 2) (sext8 5)
            else wadd16 Cpu8086.new.regs.ip 2) } })) ∧
    (tick jzScenarioMem jzScenarioCpuZ).snd.regs.ip = 7 ∧
    (tick jzScenarioMem Cpu8086.new).snd.regs.ip = 2 :=
  ⟨c9_conditional_jump_displacement jzScenarioMem jzScenarioCpuZ 0x74 Flags.ZERO true 5
      (by decide) (by decide) (by decide),
    c9_conditional_jump_displacement jzScenarioMem Cpu8086.new 0x74 Flags.ZERO true 5
      (by decide) (by decide) (by decide),
    by decide, by decide⟩

/-! ## C10 -/

set_option maxHeartbeats 3200000 in
/-- C10: when `tick` aborts because the decoded `rm` operand of opcode
0x32, 0x8C, 0x8E, 0xD0 or 0xD2 is a memory reference (ModRM mode bits not
`0b11`), or because the shift-group sub-field of 0xD0/0xD2 is neither 4
nor 5, `ip` has already been advanced by 2 at the moment of the abort
while general-purpose registers, segment registers and flags are still
unchanged. -/
theorem c10_operand_aborts_after_ip_advance (mem : Mem) (cpu : Cpu8086) (modrm : Nat)
    (hmod : memReadByte mem (cpu.regs.readseg16 SegReg.CS) (wadd16 cpu.regs.ip 1) = modrm) :
    (∀ b err, memPanicErr b = some err →
      memReadByte mem (cpu.regs.readseg16 SegReg.CS) cpu.regs.ip = b →
      (modrm &&& 0xc0) >>> 6 ≠ 3 →
      tick mem cpu = (some err,
        { cpu with opcode := b, regs := { cpu.regs with ip := wadd16 cpu.regs.ip 2 } })) ∧
    (∀ b, (b = 0xd0 ∨ b = 0xd2) →
      memReadByte mem (cpu.regs.readseg16 SegReg.CS) cpu.regs.ip = b →
      (modrm &&& 0xc0) >>> 6 = 3 →
      (modrm &&& 0x38) >>> 3 ≠ 4 →
      (modrm &&& 0x38) >>> 3 ≠ 5 →
      tick mem cpu = (some CpuErr.unimplementedGroupOpcode,
        { cpu with opcode := b, regs := { cpu.regs with ip := wadd16 cpu.regs.ip 2 } })) := by
  constructor
  · intro b err htab hop hmode
    unfold memPanicErr at htab
    split at htab <;>
      try exact Option.noConfusion htab
    all_goals injection htab with h1
    all_goals subst h1
    all_goals simp only [tick]
    all_goals rw [hop, hmod]
    all_goals dsimp only [get_opcode_params_from_modrm]
    all_goals rw [if_neg hmode]
  · intro b hb hop hmode h4 h5
    rcases hb with hb | hb <;> subst hb <;>
      (simp only [tick]
       rw [hop, hmod]
       dsimp only [get_opcode_params_from_modrm]
       rw [if_pos hmode]
       dsimp only
       split
       · rename_i heq; exact absurd heq h4
       · rename_i heq; exact absurd heq h5
       · rfl)

/-- Program `0x32 0x06` (`xor reg, rm` with a memory-mode ModRM byte) at
the reset vector. -/
def xorMemOperandMem : Mem := fun a =>
  if a = 0xffff0 then 0x32 else if a = 0xffff1 then 0x06 else 0

/-- Program `0xD0 0xC0` (register-direct ModRM with group sub-field 0) at
the reset vector. -/
def shiftGroup0Mem : Mem := fun a =>
  if a = 0xffff0 then 0xd0 else if a = 0xffff1 then 0xc0 else 0

/-- Witness for C10: both abort shapes, each with `ip` already advanced
to 2 and everything else untouched. -/
theorem c10_operand_aborts_after_ip_advance_witness :
    tick xorMemOperandMem Cpu8086.new = (some CpuErr.memoryOperandsNotSupported,
      { Cpu8086.new with
          opcode := 0x32,
          regs := { Cpu8086.new.regs with ip := wadd16 Cpu8086.new.regs.ip 2 } }) ∧
    tick shiftGroup0Mem Cpu8086.new = (some CpuErr.unimplementedGroupOpcode,
      { Cpu8086.new with
          opcode := 0xd0,
          regs := { Cpu8086.new.regs with ip := wadd16 Cpu8086.new.regs.ip 2 } }) :=
  ⟨(c10_operand_aborts_after_ip_advance xorMemOperandMem Cpu8086.new 0x06 (by decide)).1
      0x32 CpuErr.memoryOperandsNotSupported (by decide) (by decide) (by decide),
    (c10_operand_aborts_after_ip_advance shiftGroup0Mem Cpu8086.new 0xc0 (by decide)).2
      0xd0 (Or.inl rfl) (by decide) (by decide) (by decide) (by decide)⟩

end EmuPc
